import Mathlib

/-!
Verification of the task/flow dependency-graph model and utility helpers of
the `prefect` repository, via a shallow embedding in Lean 4.

The embedding has two parts:

* `Prefect.Rs`: a direct embedding of
  `src/prefect/utilities/rs_repository/extrations.py` (`band_path`), over a
  small model of Python/JSON values with Python subscript and iteration
  semantics, with errors as `Except` values.

* `Prefect`: the TaskNode model. The node class itself
  (`prefect/core/task.py`) is not among the given source files — only its
  test suite is — so the constructor, validation, copy, id re-assignment and
  (de)serialization are modelled from the specification's words (each such
  definition is marked `Modelled from the spec:`), with the test suite
  fixing the concrete behaviours (error classes, defaults, registry).
-/

namespace Prefect

namespace Rs

/-- A model of the Python/JSON values that flow through the repository's
band-lookup helpers: `null`, numbers, strings, lists and mappings
(association lists of string keys). -/
inductive JVal where
  | null
  | num (n : Int)
  | str (s : String)
  | arr (items : List JVal)
  | obj (fields : List (String × JVal))

mutual

/-- Python `==` on the modelled values: structural comparison. -/
def JVal.beq : JVal → JVal → Bool
  | .null, .null => true
  | .num a, .num b => a == b
  | .str a, .str b => a == b
  | .arr a, .arr b => beqItems a b
  | .obj a, .obj b => beqFields a b
  | _, _ => false

/-- Elementwise Python `==` on lists of values. -/
def beqItems : List JVal → List JVal → Bool
  | [], [] => true
  | a :: as, b :: bs => JVal.beq a b && beqItems as bs
  | _, _ => false

/-- Elementwise Python `==` on mapping entries. -/
def beqFields : List (String × JVal) → List (String × JVal) → Bool
  | [], [] => true
  | (ka, va) :: as, (kb, vb) :: bs => (ka == kb) && JVal.beq va vb && beqFields as bs
  | _, _ => false

end

/-- Python error classes that `band_path` can surface: the repository's
`BandDoesNotExist`, and the built-in `KeyError`/`TypeError` raised by
subscripting and iteration. -/
inductive PyErr where
  | bandDoesNotExist
  | keyError
  | typeError
deriving DecidableEq, Repr

/-- Python subscripting `v[key]` with a string key: a mapping yields the
value at the key (`KeyError` if absent); subscripting any non-mapping value
with a string key is a `TypeError`. -/
def getItem (v : JVal) (key : String) : Except PyErr JVal :=
  match v with
  | .obj fields =>
      match fields.find? (fun p => p.1 == key) with
      | some p => .ok p.2
      | none => .error .keyError
  | _ => .error .typeError

/-- Python iteration, as used by `filter`: a list yields its items, a string
its characters, a mapping its keys; numbers and `None` are not iterable
(`TypeError`). -/
def toIter (v : JVal) : Except PyErr (List JVal) :=
  match v with
  | .arr items => .ok items
  | .str s => .ok (s.data.map (fun c => .str (String.mk [c])))
  | .obj fields => .ok (fields.map (fun p => .str p.1))
  | _ => .error .typeError

/-- The `next(filter(lambda band_info: band_info['band'] == band_nr, ...))`
step of `band_path`, with the `StopIteration` of an exhausted iterator
already converted (per the `except StopIteration` handler) into
`BandDoesNotExist`: scan left to right, evaluating `band_info['band']`
(which may itself raise) on each entry until one equals `band_nr`. -/
def firstBand (band_nr : JVal) : List JVal → Except PyErr JVal
  | [] => .error .bandDoesNotExist
  | bi :: rest => do
      let b ← getItem bi "band"
      if JVal.beq b band_nr then .ok bi else firstBand band_nr rest

/-- `band_path` from `src/prefect/utilities/rs_repository/extrations.py`:
select the first entry of `product_json["data"]["imagery"]` whose `'band'`
equals `band_nr` and return its `'url'`; an exhausted search raises
`BandDoesNotExist` (`from None`, so no chained cause). -/
def band_path (product_json : JVal) (band_nr : JVal) : Except PyErr JVal := do
  let data ← getItem product_json "data"
  let imagery ← getItem data "imagery"
  let items ← toIter imagery
  let band ← firstBand band_nr items
  getItem band "url"

/-- The `'band'` field of an entry, when the entry is a mapping that has
one (specification-side view of an imagery entry). -/
def entryBand (bi : JVal) : Option JVal :=
  (getItem bi "band").toOption

/-- Specification-side selector: the first imagery entry whose `'band'`
field equals the requested band number. -/
def firstMatching (entries : List JVal) (band_nr : JVal) : Option JVal :=
  entries.find? (fun bi =>
    match entryBand bi with
    | some b => JVal.beq b band_nr
    | none => false)

/-- A concrete product document with two imagery bands, used to witness the
`band_path` specification. -/
def sampleProduct : JVal :=
  .obj [("data", .obj [("imagery", .arr [
    .obj [("band", .num 1), ("url", .str "10.0.0.1/p/b01")],
    .obj [("band", .num 2), ("url", .str "10.0.0.2/p/b02")]])])]

end Rs

/-! ## The TaskNode model (modelled from the spec) -/

/-- Modelled from the spec: the two error classes the node model raises
(`ValueError`-class for retry/identifier/definition-time errors,
`TypeError`-class for timeout/tags/state-handler errors). -/
inductive ErrClass where
  | valueError
  | typeError
deriving DecidableEq, Repr

/-- Modelled from the spec: the non-fatal warnings the node model emits
(ineffective cache-validator combination; `copy` not mirroring dependency
edges). -/
inductive TaskWarning where
  | taskWillNotBeCached
  | notTrackingDependencies
deriving DecidableEq, Repr

/-- Modelled from the spec: the cache validators named by the test suite
(`never_use`, `duration_only`, `all_inputs` from
`prefect.engine.cache_validators`). -/
inductive CacheValidator where
  | never_use
  | duration_only
  | all_inputs
deriving DecidableEq, Repr

/-- Modelled from the spec: trigger predicates over upstream states;
`all_successful` is the default. -/
inductive Trigger where
  | all_successful
  | all_failed
  | any_successful
  | any_failed
deriving DecidableEq, Repr

/-- A duration (`datetime.timedelta`), in microseconds. -/
abbrev Duration := Int

/-- An opaque state-handler callable. -/
abbrev StateHandler := Nat

/-- A Python value supplied for `timeout`: either an `int` or some
non-integer value (such as `0.5`). -/
inductive TimeoutVal where
  | int (n : Int)
  | nonInt
deriving DecidableEq, Repr

/-- A Python value supplied for `tags`: a bare string, or a collection of
strings. -/
inductive TagsVal where
  | str (s : String)
  | coll (l : List String)
deriving DecidableEq, Repr

/-- A Python value supplied for `state_handlers`: a bare callable, or a
sequence of callables. -/
inductive HandlersVal where
  | bare
  | seq (l : List StateHandler)
deriving DecidableEq, Repr

/-- A Python value assigned to a node's `id`: a plain integer or a string. -/
inductive IdVal where
  | int (n : Int)
  | str (s : String)
deriving DecidableEq, Repr

/-- One declared parameter of a work function (`run`): its name and whether
it carries a default value. -/
structure RunParam where
  name : String
  hasDefault : Bool
deriving DecidableEq, Repr

/-- The declared signature of a work function: its (non-`self`) parameters
in order, and whether it declares a variadic positional parameter. -/
structure RunSignature where
  params : List RunParam
  hasVarArgs : Bool
deriving DecidableEq, Repr

/-- A declared TaskNode subtype: fully-qualified type name, short type name,
fully-qualified names of its proper ancestors, and its work-function
signature. -/
structure TaskClass where
  typeName : String
  shortName : String
  ancestors : List String
  signature : RunSignature
deriving DecidableEq, Repr

/-- The process-wide configuration lookup consumed by the core: exactly one
default, the fallback `tasks.defaults.timeout`. -/
structure Config where
  tasksDefaultsTimeout : Option Int
deriving DecidableEq, Repr

/-- The ambient execution context frame active at construction/binding
time: its tag set. -/
structure Context where
  tags : List String
deriving DecidableEq, Repr

/-- The keyword arguments of TaskNode construction, each optional (absent
means the Python default). -/
structure TaskArgs where
  name : Option String
  slug : Option String
  max_retries : Nat
  retry_delay : Option Duration
  timeout : Option TimeoutVal
  trigger : Option Trigger
  state_handlers : Option HandlersVal
  tags : Option TagsVal
  cache_for : Option Duration
  cache_validator : Option CacheValidator
  result_handler : Option Unit
deriving DecidableEq

/-- Construction with no keyword arguments (`Task()`). -/
def defaultTaskArgs : TaskArgs :=
  { name := none, slug := none, max_retries := 0, retry_delay := none,
    timeout := none, trigger := none, state_handlers := none, tags := none,
    cache_for := none, cache_validator := none, result_handler := none }

/-- The hexadecimal digit character for a value below 16 (lowercase, as
`uuid.uuid4` renders). -/
def hexDigitChar (n : Nat) : Char :=
  if n < 10 then Char.ofNat (48 + n) else Char.ofNat (87 + n)

/-- The value of a lowercase hexadecimal digit character. -/
def hexVal (c : Char) : Nat :=
  if c.toNat ≥ 97 then c.toNat - 87 else c.toNat - 48

/-- Fixed-width big-endian hexadecimal rendering of a natural number. -/
def toHexFixed : Nat → Nat → List Char
  | 0, _ => []
  | w + 1, n => toHexFixed w (n / 16) ++ [hexDigitChar (n % 16)]

/-- Group a 32-digit string into the canonical 8-4-4-4-12 UUID shape. -/
def insertHyphens (h : List Char) : List Char :=
  h.take 8 ++ '-' :: (h.drop 8).take 4 ++ '-' :: (h.drop 12).take 4 ++
    '-' :: (h.drop 16).take 4 ++ '-' :: h.drop 20

/-- Modelled from the spec: the canonical string form of a 128-bit
identifier (`str(uuid.uuid4())`); the fresh-identifier supply is modelled
as a counter rendered canonically. -/
def uuidOfNat (n : Nat) : String :=
  String.mk (insertHyphens (toHexFixed 32 (n % 2 ^ 128)))

/-- The hexadecimal digits of an identifier string, hyphens removed. -/
def stripHyphens (s : String) : List Char :=
  s.data.filter (fun c => c != '-')

/-- The value of a big-endian hexadecimal digit list. -/
def fromHex (l : List Char) : Nat :=
  l.foldl (fun acc c => acc * 16 + hexVal c) 0

/-- The 128-bit value encoded by an identifier string. -/
def uuidIndex (s : String) : Nat :=
  fromHex (stripHyphens s)

/-- Whether a string is a well-formed canonical unique-identifier string:
36 characters, hyphens at positions 8, 13, 18 and 23, hexadecimal digits
elsewhere. -/
def isUUID (s : String) : Bool :=
  s.data.length == 36 &&
  (List.range 36).all (fun i =>
    if i == 8 || i == 13 || i == 18 || i == 23 then s.data.getD i ' ' == '-'
    else (s.data.getD i ' ').isDigit ||
      ('a' ≤ s.data.getD i ' ' && s.data.getD i ' ' ≤ 'f') ||
      ('A' ≤ s.data.getD i ' ' && s.data.getD i ' ' ≤ 'F'))

/-- Modelled from the spec: a constructed TaskNode — identity, declared
type, retry/caching/trigger/timeout policy, tag set, handlers, and the
declared work-function signature. -/
structure Task where
  typeName : String
  shortName : String
  ancestors : List String
  signature : RunSignature
  id : String
  name : String
  slug : Option String
  max_retries : Nat
  retry_delay : Option Duration
  timeout : Option Int
  trigger : Trigger
  state_handlers : List StateHandler
  tags : Finset String
  cache_for : Option Duration
  cache_validator : CacheValidator
  result_handler : Option Unit
deriving DecidableEq

/-- The parameter names reserved by the binding layer. -/
def reservedParamNames : List String := ["mapped", "upstream_tasks"]

/-- Modelled from the spec: definition-time validation of a new TaskNode
subtype — inspect the declared work-function signature and reject, with a
`ValueError`-class error, a variadic positional parameter or a parameter
literally named `mapped` or `upstream_tasks` (with or without a default),
before any instance exists. -/
def declareTaskClass (typeName shortName : String) (ancestors : List String)
    (sig : RunSignature) : Except ErrClass TaskClass :=
  if sig.hasVarArgs then .error .valueError
  else if sig.params.any (fun p => reservedParamNames.contains p.name) then
    .error .valueError
  else .ok ⟨typeName, shortName, ancestors, sig⟩

/-- Modelled from the spec: construction step (1) — resolve the `timeout`
default from the process-wide configuration when unset. -/
def resolveTimeoutArg (args : TaskArgs) (cfg : Config) : Option TimeoutVal :=
  match args.timeout with
  | some t => some t
  | none => cfg.tasksDefaultsTimeout.map TimeoutVal.int

/-- Modelled from the spec: construction step (2) — `max_retries > 0`
without a `retry_delay` is a `ValueError`-class error. -/
def checkRetry (args : TaskArgs) : Except ErrClass Unit :=
  if 0 < args.max_retries ∧ args.retry_delay = none then .error .valueError
  else .ok ()

/-- Modelled from the spec: construction step (3) — a non-integer `timeout`
is a `TypeError`-class error. -/
def checkTimeout : Option TimeoutVal → Except ErrClass (Option Int)
  | some .nonInt => .error .typeError
  | some (.int n) => .ok (some n)
  | none => .ok none

/-- Modelled from the spec: construction step (4) — `tags` supplied as a
bare string where a collection was expected is a `TypeError`-class error. -/
def checkTags : Option TagsVal → Except ErrClass (List String)
  | some (.str _) => .error .typeError
  | some (.coll l) => .ok l
  | none => .ok []

/-- Modelled from the spec: construction step (6) — `state_handlers`
supplied as a bare callable instead of a sequence is a `TypeError`-class
error. -/
def checkHandlers : Option HandlersVal → Except ErrClass (List StateHandler)
  | some .bare => .error .typeError
  | some (.seq l) => .ok l
  | none => .ok []

/-- Modelled from the spec: construction step (7) — resolve the caching
policy pair: neither supplied selects `never_use`; `cache_for` alone
selects `duration_only`; an explicit validator is kept; a validator without
`cache_for` is kept but draws the "Task will not be cached" warning. -/
def resolveCache (cache_for : Option Duration) (cv : Option CacheValidator) :
    CacheValidator × List TaskWarning :=
  match cache_for, cv with
  | none, none => (.never_use, [])
  | some _, none => (.duration_only, [])
  | some _, some v => (v, [])
  | none, some v => (v, [.taskWillNotBeCached])

/-- Modelled from the spec: TaskNode construction — steps (1)–(8) of the
construction contract in order: resolve the configured `timeout` default,
validate retry/delay consistency, validate `timeout`, validate `tags`,
merge ambient context tags, validate `state_handlers`, resolve the caching
policy (emitting its warning), and assign a fresh identifier (threaded as a
counter). Returns the node, the warnings emitted, and the next counter. -/
def mkTask (cls : TaskClass) (args : TaskArgs) (cfg : Config) (ctx : Context)
    (nextId : Nat) : Except ErrClass (Task × List TaskWarning × Nat) := do
  let tv := resolveTimeoutArg args cfg
  checkRetry args
  let timeout ← checkTimeout tv
  let ownTags ← checkTags args.tags
  let handlers ← checkHandlers args.state_handlers
  let cw := resolveCache args.cache_for args.cache_validator
  .ok ({ typeName := cls.typeName, shortName := cls.shortName,
         ancestors := cls.ancestors, signature := cls.signature,
         id := uuidOfNat nextId,
         name := args.name.getD cls.shortName,
         slug := args.slug,
         max_retries := args.max_retries,
         retry_delay := args.retry_delay,
         timeout := timeout,
         trigger := args.trigger.getD .all_successful,
         state_handlers := handlers,
         tags := ownTags.toFinset ∪ ctx.tags.toFinset,
         cache_for := args.cache_for,
         cache_validator := cw.1,
         result_handler := args.result_handler },
        cw.2, nextId + 1)

/-- Modelled from the spec: `copy()` — a new node of the same concrete
type, shallow-duplicating instance attributes but assigning a fresh
identifier; when the source node has dependency edges registered in the
active graph context, a non-fatal warning is emitted that dependency
information has not been mirrored. -/
def Task.copy (t : Task) (depsInActiveGraph : Bool) (nextId : Nat) :
    Task × List TaskWarning × Nat :=
  ({ t with id := uuidOfNat nextId },
   if depsInActiveGraph then [.notTrackingDependencies] else [],
   nextId + 1)

/-- Modelled from the spec: explicit, validated re-assignment of a node's
`id` — the new value must be a well-formed identifier string; plain
integers and malformed strings are rejected with a `ValueError`-class
error. -/
def Task.set_id (t : Task) (v : IdVal) : Except ErrClass Task :=
  match v with
  | .int _ => .error .valueError
  | .str s => if isUUID s then .ok { t with id := s } else .error .valueError

/-- Modelled from the spec: the mapping produced by `serialize` — at
minimum `id`, `type` (the fully-qualified concrete type name) and `name`,
plus the declared policy fields. -/
structure SerializedTask where
  id : String
  type : String
  name : String
  slug : Option String
  max_retries : Nat
  retry_delay : Option Duration
  timeout : Option Int
  trigger : Trigger
  tags : Finset String
  cache_for : Option Duration
  cache_validator : CacheValidator
deriving DecidableEq

/-- Modelled from the spec: `serialize(node)` — the identity and policy
fields of the node; instance attributes outside the schema (state handlers,
result handler, the work-function signature) are not part of the mapping. -/
def Task.serialize (t : Task) : SerializedTask :=
  { id := t.id, type := t.typeName, name := t.name, slug := t.slug,
    max_retries := t.max_retries, retry_delay := t.retry_delay,
    timeout := t.timeout, trigger := t.trigger, tags := t.tags,
    cache_for := t.cache_for, cache_validator := t.cache_validator }

/-- The base node type's work-function signature (`Task.run(self)` takes no
parameters). -/
def baseTaskSignature : RunSignature := ⟨[], false⟩

/-- The base node type, `prefect.core.task.Task`. -/
def baseTaskClass : TaskClass :=
  ⟨"prefect.core.task.Task", "Task", [], baseTaskSignature⟩

/-- Modelled from the spec: the deserializer's type registry (the types the
task schema knows how to reconstruct); subtypes private to other processes
are absent from it. -/
def taskRegistry : List TaskClass := [baseTaskClass]

/-- Modelled from the spec: registry-driven type resolution on load — an
exact registry match reconstructs that subtype; an unknown type name falls
back to the nearest known ancestor, the base node type. -/
def resolveTaskType (typeName : String) : TaskClass :=
  match taskRegistry.find? (fun c => c.typeName == typeName) with
  | some c => c
  | none => baseTaskClass

/-- Modelled from the spec: `deserialize(mapping)` — reconstruct a node of
the resolved type from the mapping's identity and policy fields; attributes
outside the schema take the resolved type's defaults. Deserialization is
total: an unknown type never fails. -/
def deserializeTask (s : SerializedTask) : Task :=
  let cls := resolveTaskType s.type
  { typeName := cls.typeName, shortName := cls.shortName,
    ancestors := cls.ancestors, signature := cls.signature,
    id := s.id, name := s.name, slug := s.slug,
    max_retries := s.max_retries, retry_delay := s.retry_delay,
    timeout := s.timeout, trigger := s.trigger,
    state_handlers := [], tags := s.tags,
    cache_for := s.cache_for, cache_validator := s.cache_validator,
    result_handler := none }

/-- Side condition: construction step (2) passes. -/
def retryOk (args : TaskArgs) : Bool :=
  args.max_retries == 0 || args.retry_delay.isSome

/-- Side condition: construction step (3) passes. -/
def timeoutOk (args : TaskArgs) (cfg : Config) : Bool :=
  match resolveTimeoutArg args cfg with
  | some .nonInt => false
  | _ => true

/-- Side condition: construction step (4) passes. -/
def tagsOk (args : TaskArgs) : Bool :=
  match args.tags with
  | some (.str _) => false
  | _ => true

/-- Side condition: construction step (6) passes. -/
def handlersOk (args : TaskArgs) : Bool :=
  match args.state_handlers with
  | some .bare => false
  | _ => true

/-- The resolved integer timeout of a construction whose step (3) passes. -/
def resolvedInt (args : TaskArgs) (cfg : Config) : Option Int :=
  match resolveTimeoutArg args cfg with
  | some (.int n) => some n
  | _ => none

/-- The explicitly supplied tag list of a construction whose step (4)
passes. -/
def tagsList (args : TaskArgs) : List String :=
  match args.tags with
  | some (.coll l) => l
  | _ => []

/-- The supplied state-handler list of a construction whose step (6)
passes. -/
def handlersList (args : TaskArgs) : List StateHandler :=
  match args.state_handlers with
  | some (.seq l) => l
  | _ => []

/-- An empty ambient context. -/
def emptyContext : Context := ⟨[]⟩

/-- The default configuration: no `tasks.defaults.timeout`. -/
def defaultConfig : Config := ⟨none⟩

/-- A concrete base-type node, used to witness theorems quantified over
nodes. -/
def sampleTask : Task :=
  { typeName := "prefect.core.task.Task", shortName := "Task",
    ancestors := [], signature := baseTaskSignature,
    id := uuidOfNat 0, name := "Task", slug := none,
    max_retries := 0, retry_delay := none, timeout := none,
    trigger := .all_successful, state_handlers := [], tags := ∅,
    cache_for := none, cache_validator := .never_use,
    result_handler := none }

/-- A concrete unregistered-subtype node (a subtype private to another
process), used to witness the deserialization fallback. -/
def sampleSubclassTask : Task :=
  { sampleTask with typeName := "tests.core.test_task.NewTask",
                    shortName := "NewTask",
                    ancestors := ["prefect.core.task.Task"],
                    name := "test" }

end Prefect

/-! ## Theorems -/

namespace Prefect

namespace Rs

theorem firstBand_eq_firstMatching (band_nr : JVal) (entries : List JVal)
    (h : ∀ bi ∈ entries, (entryBand bi).isSome = true) :
    firstBand band_nr entries =
      match firstMatching entries band_nr with
      | some bi => .ok bi
      | none => .error .bandDoesNotExist := by
  induction entries with
  | nil => rfl
  | cons bi rest ih =>
      have hbi : (entryBand bi).isSome = true := h bi (List.mem_cons_self bi rest)
      obtain ⟨b, hb⟩ : ∃ b, getItem bi "band" = .ok b := by
        cases hgb : getItem bi "band" with
        | ok b => exact ⟨b, rfl⟩
        | error e =>
            rw [entryBand, hgb] at hbi
            simp [Except.toOption] at hbi
      have ih' := ih (fun x hx => h x (List.mem_cons_of_mem bi hx))
      have hband : entryBand bi = some b := by
        simp [entryBand, hb, Except.toOption]
      cases hEq : JVal.beq b band_nr with
      | true =>
          simp [firstBand, hb, hEq, firstMatching, List.find?, hband,
            Bind.bind, Except.bind]
      | false =>
          simp [firstBand, hb, hEq, firstMatching, List.find?, hband,
            Bind.bind, Except.bind]
          simpa [firstMatching] using ih'

/-- C10, counterexample to the claim as stated: the empty mapping is a
`product_json` mapping with no matching imagery entry, yet `band_path`
raises `KeyError` (from the `product_json["data"]` subscript), not
`BandDoesNotExist`. -/
theorem band_path_claim_counterexample :
    band_path (JVal.obj []) (JVal.num 1) = .error .keyError ∧
    (Except.error PyErr.keyError : Except PyErr JVal) ≠
      .error .bandDoesNotExist := by
  refine ⟨rfl, ?_⟩
  intro h
  simp at h

/-- C10 (amended): for every product mapping whose `"data"` member carries
an `"imagery"` list, each entry of which has a `'band'` field, `band_path`
returns the `'url'` field of the first entry whose `'band'` equals the given
band number, and raises `BandDoesNotExist` exactly when no entry matches. -/
theorem band_path_spec (fields dfields : List (String × JVal))
    (entries : List JVal) (band_nr : JVal)
    (hdata : getItem (.obj fields) "data" = .ok (.obj dfields))
    (himg : getItem (.obj dfields) "imagery" = .ok (.arr entries))
    (hwf : ∀ bi ∈ entries, (entryBand bi).isSome = true) :
    (∀ bi u, firstMatching entries band_nr = some bi →
        getItem bi "url" = .ok u →
        band_path (.obj fields) band_nr = .ok u) ∧
    (firstMatching entries band_nr = none →
        band_path (.obj fields) band_nr = .error .bandDoesNotExist) := by
  have hfb := firstBand_eq_firstMatching band_nr entries hwf
  constructor
  · intro bi u hfind hurl
    rw [hfind] at hfb
    simp [band_path, hdata, himg, toIter, hfb, hurl, Bind.bind, Except.bind]
  · intro hfind
    rw [hfind] at hfb
    simp [band_path, hdata, himg, toIter, hfb, Bind.bind, Except.bind]

/-- Witness for C10's theorem: on the concrete two-band product,
`band_path` with band 2 returns the second entry's url. -/
theorem band_path_spec_witness :
    band_path sampleProduct (JVal.num 2) = .ok (.str "10.0.0.2/p/b02") := by
  have h := band_path_spec
    [("data", .obj [("imagery", .arr [
      .obj [("band", .num 1), ("url", .str "10.0.0.1/p/b01")],
      .obj [("band", .num 2), ("url", .str "10.0.0.2/p/b02")]])])]
    [("imagery", .arr [
      .obj [("band", .num 1), ("url", .str "10.0.0.1/p/b01")],
      .obj [("band", .num 2), ("url", .str "10.0.0.2/p/b02")]])]
    [.obj [("band", .num 1), ("url", .str "10.0.0.1/p/b01")],
     .obj [("band", .num 2), ("url", .str "10.0.0.2/p/b02")]]
    (JVal.num 2) rfl rfl (by
      intro bi hbi
      simp at hbi
      rcases hbi with rfl | rfl <;> rfl)
  exact h.1 _ _ rfl rfl

end Rs

theorem checkRetry_ok (args : TaskArgs) (h : retryOk args = true) :
    checkRetry args = .ok () := by
  simp [retryOk] at h
  rw [checkRetry, if_neg]
  rintro ⟨hpos, hnone⟩
  rcases h with h | h
  · omega
  · rw [hnone] at h
    simp at h

theorem checkTimeout_ok (args : TaskArgs) (cfg : Config)
    (h : timeoutOk args cfg = true) :
    checkTimeout (resolveTimeoutArg args cfg) = .ok (resolvedInt args cfg) := by
  rw [timeoutOk] at h
  rw [resolvedInt]
  cases htv : resolveTimeoutArg args cfg with
  | none => rfl
  | some tv =>
      cases tv with
      | int n => rfl
      | nonInt =>
          rw [htv] at h
          simp at h

theorem checkTags_ok (args : TaskArgs) (h : tagsOk args = true) :
    checkTags args.tags = .ok (tagsList args) := by
  rw [tagsOk] at h
  rw [tagsList]
  cases htv : args.tags with
  | none => rfl
  | some tv =>
      cases tv with
      | coll l => rfl
      | str s =>
          rw [htv] at h
          simp at h

theorem checkHandlers_ok (args : TaskArgs) (h : handlersOk args = true) :
    checkHandlers args.state_handlers = .ok (handlersList args) := by
  rw [handlersOk] at h
  rw [handlersList]
  cases htv : args.state_handlers with
  | none => rfl
  | some tv =>
      cases tv with
      | seq l => rfl
      | bare =>
          rw [htv] at h
          simp at h

theorem mkTask_ok (cls : TaskClass) (args : TaskArgs) (cfg : Config)
    (ctx : Context) (nextId : Nat)
    (h1 : retryOk args = true) (h2 : timeoutOk args cfg = true)
    (h3 : tagsOk args = true) (h4 : handlersOk args = true) :
    mkTask cls args cfg ctx nextId =
      .ok ({ typeName := cls.typeName, shortName := cls.shortName,
             ancestors := cls.ancestors, signature := cls.signature,
             id := uuidOfNat nextId,
             name := args.name.getD cls.shortName,
             slug := args.slug,
             max_retries := args.max_retries,
             retry_delay := args.retry_delay,
             timeout := resolvedInt args cfg,
             trigger := args.trigger.getD .all_successful,
             state_handlers := handlersList args,
             tags := (tagsList args).toFinset ∪ ctx.tags.toFinset,
             cache_for := args.cache_for,
             cache_validator := (resolveCache args.cache_for args.cache_validator).1,
             result_handler := args.result_handler },
            (resolveCache args.cache_for args.cache_validator).2, nextId + 1) := by
  rw [mkTask]
  rw [checkRetry_ok args h1, checkTimeout_ok args cfg h2,
      checkTags_ok args h3, checkHandlers_ok args h4]
  rfl

theorem mkTask_retry_error (cls : TaskClass) (args : TaskArgs) (cfg : Config)
    (ctx : Context) (nextId : Nat)
    (hpos : 0 < args.max_retries) (hnone : args.retry_delay = none) :
    mkTask cls args cfg ctx nextId = .error .valueError := by
  have hcr : checkRetry args = .error .valueError := by
    rw [checkRetry, if_pos ⟨hpos, hnone⟩]
  simp [mkTask, hcr, Bind.bind, Except.bind]

theorem mkTask_timeout_error (cls : TaskClass) (args : TaskArgs) (cfg : Config)
    (ctx : Context) (nextId : Nat)
    (hr : retryOk args = true)
    (ht : resolveTimeoutArg args cfg = some .nonInt) :
    mkTask cls args cfg ctx nextId = .error .typeError := by
  simp [mkTask, checkRetry_ok args hr, ht, checkTimeout, Bind.bind, Except.bind]

theorem mkTask_tags_error (cls : TaskClass) (args : TaskArgs) (cfg : Config)
    (ctx : Context) (nextId : Nat) (s : String)
    (hr : retryOk args = true) (ht : timeoutOk args cfg = true)
    (hs : args.tags = some (.str s)) :
    mkTask cls args cfg ctx nextId = .error .typeError := by
  simp [mkTask, checkRetry_ok args hr, checkTimeout_ok args cfg ht, hs,
    checkTags, Bind.bind, Except.bind]

theorem hexVal_hexDigitChar : ∀ d < 16, hexVal (hexDigitChar d) = d := by decide

theorem hexDigitChar_ne_hyphen : ∀ d < 16, hexDigitChar d ≠ '-' := by decide

theorem toHexFixed_no_hyphen (w : Nat) :
    ∀ n : Nat, ∀ c ∈ toHexFixed w n, c ≠ '-' := by
  induction w with
  | zero =>
      intro n c hc
      simp [toHexFixed] at hc
  | succ w ih =>
      intro n c hc
      rw [toHexFixed] at hc
      rcases List.mem_append.mp hc with h | h
      · exact ih (n / 16) c h
      · simp at h
        subst h
        exact hexDigitChar_ne_hyphen (n % 16) (Nat.mod_lt n (by norm_num))

theorem foldl_toHexFixed (w : Nat) : ∀ n a : Nat,
    (toHexFixed w n).foldl (fun acc c => acc * 16 + hexVal c) a =
      a * 16 ^ w + n % 16 ^ w := by
  induction w with
  | zero =>
      intro n a
      simp [toHexFixed, Nat.mod_one]
  | succ w ih =>
      intro n a
      rw [toHexFixed, List.foldl_append]
      simp only [List.foldl_cons, List.foldl_nil]
      rw [ih (n / 16) a,
        hexVal_hexDigitChar (n % 16) (Nat.mod_lt n (by norm_num))]
      have hmod : n % 16 ^ (w + 1) = (n / 16 % 16 ^ w) * 16 + n % 16 := by
        rw [pow_succ', Nat.mod_mul]
        ring
      rw [hmod]
      ring

theorem fromHex_toHexFixed (w n : Nat) :
    fromHex (toHexFixed w n) = n % 16 ^ w := by
  rw [fromHex, foldl_toHexFixed]
  simp

theorem stripHyphens_uuidOfNat (n : Nat) :
    stripHyphens (uuidOfNat n) = toHexFixed 32 (n % 2 ^ 128) := by
  have hh : ∀ c ∈ toHexFixed 32 (n % 2 ^ 128), (c != '-') = true := by
    intro c hc
    simpa using toHexFixed_no_hyphen 32 (n % 2 ^ 128) c hc
  have hsub : ∀ l : List Char, l ⊆ toHexFixed 32 (n % 2 ^ 128) →
      l.filter (fun c => c != '-') = l :=
    fun l hl => List.filter_eq_self.mpr (fun c hc => hh c (hl hc))
  rw [stripHyphens, uuidOfNat]
  show (insertHyphens (toHexFixed 32 (n % 2 ^ 128))).filter
    (fun c => c != '-') = toHexFixed 32 (n % 2 ^ 128)
  set h := toHexFixed 32 (n % 2 ^ 128) with hdef
  rw [insertHyphens]
  simp only [List.filter_append, List.filter_cons]
  norm_num
  rw [hsub (h.take 8) (List.take_subset _ _),
      hsub ((h.drop 8).take 4)
        (fun c hc => List.drop_subset _ _ (List.take_subset _ _ hc)),
      hsub ((h.drop 12).take 4)
        (fun c hc => List.drop_subset _ _ (List.take_subset _ _ hc)),
      hsub ((h.drop 16).take 4)
        (fun c hc => List.drop_subset _ _ (List.take_subset _ _ hc)),
      hsub (h.drop 20) (List.drop_subset _ _)]
  have e20 : (h.drop 16).take 4 ++ h.drop 20 = h.drop 16 := by
    have := List.take_append_drop 4 (h.drop 16)
    rwa [List.drop_drop, show 4 + 16 = 20 from rfl] at this
  have e16 : (h.drop 12).take 4 ++ h.drop 16 = h.drop 12 := by
    have := List.take_append_drop 4 (h.drop 12)
    rwa [List.drop_drop, show 4 + 12 = 16 from rfl] at this
  have e12 : (h.drop 8).take 4 ++ h.drop 12 = h.drop 8 := by
    have := List.take_append_drop 4 (h.drop 8)
    rwa [List.drop_drop, show 4 + 8 = 12 from rfl] at this
  rw [e20, e16, e12, List.take_append_drop]

theorem uuidIndex_uuidOfNat (n : Nat) : uuidIndex (uuidOfNat n) = n % 2 ^ 128 := by
  rw [uuidIndex, stripHyphens_uuidOfNat, fromHex_toHexFixed,
    show (16 : Nat) ^ 32 = 2 ^ 128 by norm_num]
  exact Nat.mod_eq_of_lt (Nat.mod_lt n (by positivity))

theorem uuidOfNat_inj {j k : Nat} (hj : j < 2 ^ 128) (hk : k < 2 ^ 128)
    (h : uuidOfNat j = uuidOfNat k) : j = k := by
  have h2 := congrArg uuidIndex h
  rwa [uuidIndex_uuidOfNat, uuidIndex_uuidOfNat,
    Nat.mod_eq_of_lt hj, Nat.mod_eq_of_lt hk] at h2

theorem resolveTaskType_eq_base (x : String) :
    resolveTaskType x = baseTaskClass := by
  rw [resolveTaskType, taskRegistry]
  rcases h : (baseTaskClass.typeName == x) with _ | _ <;>
    simp [List.find?, h]

/-- C1: declaring a new TaskNode subtype whose work function has a variadic
positional parameter, or a parameter literally named `mapped` or
`upstream_tasks` (in each case with or without a default), fails with a
`ValueError`-class error at class-declaration time — `declareTaskClass` is
the definition-time step, run before any instance is constructed or
called. -/
theorem declare_subtype_rejects_reserved_signature
    (typeName shortName : String) (ancestors : List String)
    (sig : RunSignature)
    (h : sig.hasVarArgs = true ∨
      ∃ p ∈ sig.params, p.name = "mapped" ∨ p.name = "upstream_tasks") :
    declareTaskClass typeName shortName ancestors sig = .error .valueError := by
  rcases h with h | ⟨p, hp, hname⟩
  · rw [declareTaskClass, if_pos h]
  · rw [declareTaskClass]
    by_cases hv : sig.hasVarArgs = true
    · rw [if_pos hv]
    · rw [if_neg hv, if_pos]
      refine List.any_eq_true.mpr ⟨p, hp, ?_⟩
      rcases hname with h | h <;> simp [reservedParamNames, h]

/-- Witness for C1: a subtype whose work function declares a parameter
named `mapped` is rejected with a `ValueError`-class error at declaration. -/
theorem declare_subtype_rejects_reserved_signature_witness :
    declareTaskClass "tests.core.test_task.MappedTasks" "MappedTasks"
      ["prefect.core.task.Task"]
      ⟨[⟨"x", false⟩, ⟨"mapped", false⟩], false⟩ = .error .valueError :=
  declare_subtype_rejects_reserved_signature _ _ _ _
    (.inr ⟨⟨"mapped", false⟩, by decide, .inl rfl⟩)

/-- C2: constructing a node with `max_retries > 0` and `retry_delay` absent
fails with a `ValueError`-class error; the same construction with any
concrete duration supplied as `retry_delay` succeeds (the remaining
arguments passing their own validations). -/
theorem mkTask_retry_delay_validation (cls : TaskClass) (args : TaskArgs)
    (cfg : Config) (ctx : Context) (nextId : Nat)
    (hpos : 0 < args.max_retries)
    (ht : timeoutOk args cfg = true) (htg : tagsOk args = true)
    (hh : handlersOk args = true) :
    mkTask cls { args with retry_delay := none } cfg ctx nextId =
      .error .valueError ∧
    ∀ d : Duration, ∃ p,
      mkTask cls { args with retry_delay := some d } cfg ctx nextId = .ok p := by
  constructor
  · exact mkTask_retry_error cls _ cfg ctx nextId hpos rfl
  · intro d
    exact ⟨_, mkTask_ok cls _ cfg ctx nextId (by simp [retryOk]) ht htg hh⟩

/-- Witness for C2: `Task(max_retries=1, retry_delay=None)` fails with a
`ValueError`-class error; the same construction with a 30-second delay
succeeds. -/
theorem mkTask_retry_delay_validation_witness :
    mkTask baseTaskClass { defaultTaskArgs with max_retries := 1 }
      defaultConfig emptyContext 0 = .error .valueError ∧
    ∃ p, mkTask baseTaskClass
      { defaultTaskArgs with max_retries := 1, retry_delay := some 30000000 }
      defaultConfig emptyContext 0 = .ok p := by
  have h := mkTask_retry_delay_validation baseTaskClass
    { defaultTaskArgs with max_retries := 1 } defaultConfig emptyContext 0
    (by decide) (by decide) (by decide) (by decide)
  exact ⟨h.1, h.2 30000000⟩

/-- C3: deserializing the serialized mapping of a node whose concrete
subtype is not in the deserializer's type registry does not raise
(`deserializeTask` is total by construction); it yields a node of the base
type — not of the unregistered subtype — and preserves the serialized
name. -/
theorem deserialize_unknown_subtype_fallback (t : Task)
    (h : ∀ c ∈ taskRegistry, c.typeName ≠ t.typeName) :
    (deserializeTask t.serialize).typeName = baseTaskClass.typeName ∧
    (deserializeTask t.serialize).typeName ≠ t.typeName ∧
    (deserializeTask t.serialize).name = t.name := by
  have hbase : (deserializeTask t.serialize).typeName = baseTaskClass.typeName := by
    simp [deserializeTask, resolveTaskType_eq_base]
  refine ⟨hbase, ?_, rfl⟩
  rw [hbase]
  exact h baseTaskClass (by simp [taskRegistry])

/-- Witness for C3: serializing a concrete node of the unregistered subtype
`NewTask` and deserializing it yields a base-type node with the same name. -/
theorem deserialize_unknown_subtype_fallback_witness :
    (deserializeTask sampleSubclassTask.serialize).typeName =
      "prefect.core.task.Task" ∧
    (deserializeTask sampleSubclassTask.serialize).typeName ≠
      "tests.core.test_task.NewTask" ∧
    (deserializeTask sampleSubclassTask.serialize).name = "test" := by
  have h := deserialize_unknown_subtype_fallback sampleSubclassTask (by decide)
  exact ⟨h.1, h.2.1, h.2.2⟩

/-- C4: for every node, the serialized mapping's `id`, `type` and `name`
equal the node's id, the fully-qualified name of its concrete type, and its
name; deserializing that mapping yields a node of the base type whose `id`
and `name` equal the original's, while attributes outside the schema (the
work-function signature, the state handlers) do not survive the
round-trip. -/
theorem serialize_roundtrip_identity (t : Task) :
    t.serialize.id = t.id ∧ t.serialize.type = t.typeName ∧
    t.serialize.name = t.name ∧
    (deserializeTask t.serialize).typeName = baseTaskClass.typeName ∧
    (deserializeTask t.serialize).id = t.id ∧
    (deserializeTask t.serialize).name = t.name ∧
    (deserializeTask t.serialize).signature = baseTaskSignature ∧
    (deserializeTask t.serialize).state_handlers = [] := by
  refine ⟨rfl, rfl, rfl, ?_, rfl, rfl, ?_, rfl⟩
  · simp [deserializeTask, resolveTaskType_eq_base]
  · simp [deserializeTask, resolveTaskType_eq_base, baseTaskClass]

/-- C5: construction with `tags` given as a bare string fails with a
`TypeError`-class error; with a list of strings it succeeds and the node's
tags are the duplicate-free set of those strings unioned with the ambient
context tags; with no declared tags the ambient tags alone form the node's
tag set. -/
theorem mkTask_tags_behaviour (cls : TaskClass) (args : TaskArgs)
    (cfg : Config) (ctx : Context) (nextId : Nat)
    (hr : retryOk args = true) (ht : timeoutOk args cfg = true)
    (hh : handlersOk args = true) :
    (∀ s, mkTask cls { args with tags := some (.str s) } cfg ctx nextId =
        .error .typeError) ∧
    (∀ l, ∃ p, mkTask cls { args with tags := some (.coll l) } cfg ctx nextId =
        .ok p ∧ p.1.tags = l.toFinset ∪ ctx.tags.toFinset) ∧
    (∃ p, mkTask cls { args with tags := none } cfg ctx nextId = .ok p ∧
        p.1.tags = ctx.tags.toFinset) := by
  refine ⟨?_, ?_, ?_⟩
  · intro s
    exact mkTask_tags_error cls _ cfg ctx nextId s hr ht rfl
  · intro l
    exact ⟨_, mkTask_ok cls _ cfg ctx nextId hr ht rfl hh, rfl⟩
  · refine ⟨_, mkTask_ok cls _ cfg ctx nextId hr ht rfl hh, ?_⟩
    simp [tagsList]

/-- Witness for C5: `Task(tags="test")` fails with a `TypeError`-class
error; `Task(tags=["test","test2","test"])` under an ambient `{"ambient"}`
context yields the tag set `{"test","test2","ambient"}`; `Task()` under the
same context yields `{"ambient"}`. -/
theorem mkTask_tags_behaviour_witness :
    (mkTask baseTaskClass { defaultTaskArgs with tags := some (.str "test") }
      defaultConfig emptyContext 0 = .error .typeError) ∧
    (∃ p, mkTask baseTaskClass
        { defaultTaskArgs with tags := some (.coll ["test", "test2", "test"]) }
        defaultConfig (Context.mk ["ambient"]) 0 = .ok p ∧
      p.1.tags = (["test", "test2", "test"] : List String).toFinset ∪
        (["ambient"] : List String).toFinset) ∧
    (∃ p, mkTask baseTaskClass defaultTaskArgs defaultConfig
        (Context.mk ["ambient"]) 0 = .ok p ∧
      p.1.tags = (["ambient"] : List String).toFinset) := by
  have h := mkTask_tags_behaviour baseTaskClass defaultTaskArgs defaultConfig
    (Context.mk ["ambient"]) 0 (by decide) (by decide) (by decide)
  have h2 := mkTask_tags_behaviour baseTaskClass defaultTaskArgs defaultConfig
    emptyContext 0 (by decide) (by decide) (by decide)
  exact ⟨h2.1 "test", h.2.1 ["test", "test2", "test"], h.2.2⟩

/-- C6: caching-policy resolution at construction — neither `cache_for` nor
`cache_validator` yields the never-cache validator; `cache_for` alone
yields the duration-based validator; both keeps the explicit validator; a
validator without `cache_for` is accepted (construction succeeds) but emits
the non-fatal "Task will not be cached" warning. -/
theorem mkTask_cache_policy (cls : TaskClass) (args : TaskArgs)
    (cfg : Config) (ctx : Context) (nextId : Nat)
    (hr : retryOk args = true) (ht : timeoutOk args cfg = true)
    (htg : tagsOk args = true) (hh : handlersOk args = true) :
    (∃ p, mkTask cls { args with cache_for := none, cache_validator := none }
        cfg ctx nextId = .ok p ∧
      p.1.cache_validator = .never_use ∧ p.2.1 = []) ∧
    (∀ d, ∃ p, mkTask cls
        { args with cache_for := some d, cache_validator := none }
        cfg ctx nextId = .ok p ∧
      p.1.cache_validator = .duration_only ∧ p.2.1 = []) ∧
    (∀ d v, ∃ p, mkTask cls
        { args with cache_for := some d, cache_validator := some v }
        cfg ctx nextId = .ok p ∧ p.1.cache_validator = v ∧ p.2.1 = []) ∧
    (∀ v, ∃ p, mkTask cls
        { args with cache_for := none, cache_validator := some v }
        cfg ctx nextId = .ok p ∧ p.2.1 = [.taskWillNotBeCached]) := by
  refine ⟨?_, ?_, ?_, ?_⟩
  · exact ⟨_, mkTask_ok cls _ cfg ctx nextId hr ht htg hh, rfl, rfl⟩
  · intro d
    exact ⟨_, mkTask_ok cls _ cfg ctx nextId hr ht htg hh, rfl, rfl⟩
  · intro d v
    exact ⟨_, mkTask_ok cls _ cfg ctx nextId hr ht htg hh, rfl, rfl⟩
  · intro v
    exact ⟨_, mkTask_ok cls _ cfg ctx nextId hr ht htg hh, rfl⟩

/-- Witness for C6: the four concrete cache constructions of the test
suite, with a one-day `cache_for` duration. -/
theorem mkTask_cache_policy_witness :
    (∃ p, mkTask baseTaskClass defaultTaskArgs defaultConfig emptyContext 0 =
        .ok p ∧ p.1.cache_validator = .never_use ∧ p.2.1 = []) ∧
    (∃ p, mkTask baseTaskClass
        { defaultTaskArgs with cache_for := some 86400000000 }
        defaultConfig emptyContext 0 = .ok p ∧
      p.1.cache_validator = .duration_only ∧ p.2.1 = []) ∧
    (∃ p, mkTask baseTaskClass
        { defaultTaskArgs with cache_for := some 86400000000,
                               cache_validator := some .all_inputs }
        defaultConfig emptyContext 0 = .ok p ∧
      p.1.cache_validator = .all_inputs ∧ p.2.1 = []) ∧
    (∃ p, mkTask baseTaskClass
        { defaultTaskArgs with cache_validator := some .all_inputs }
        defaultConfig emptyContext 0 = .ok p ∧
      p.2.1 = [.taskWillNotBeCached]) := by
  have h := mkTask_cache_policy baseTaskClass defaultTaskArgs defaultConfig
    emptyContext 0 (by decide) (by decide) (by decide) (by decide)
  exact ⟨h.1, h.2.1 86400000000, h.2.2.1 86400000000 .all_inputs,
    h.2.2.2 .all_inputs⟩

/-- C7: construction with a non-integer `timeout` fails with a
`TypeError`-class error; an integer `timeout` succeeds and is read back
unchanged; an unset `timeout` resolves to the configured
`tasks.defaults.timeout`, and to `None` when no default is configured. -/
theorem mkTask_timeout_behaviour (cls : TaskClass) (args : TaskArgs)
    (cfg : Config) (ctx : Context) (nextId : Nat)
    (hr : retryOk args = true) (htg : tagsOk args = true)
    (hh : handlersOk args = true) :
    (mkTask cls { args with timeout := some .nonInt } cfg ctx nextId =
      .error .typeError) ∧
    (∀ n : Int, ∃ p, mkTask cls { args with timeout := some (.int n) }
        cfg ctx nextId = .ok p ∧ p.1.timeout = some n) ∧
    (∀ d : Int, cfg.tasksDefaultsTimeout = some d →
      ∃ p, mkTask cls { args with timeout := none } cfg ctx nextId = .ok p ∧
        p.1.timeout = some d) ∧
    (cfg.tasksDefaultsTimeout = none →
      ∃ p, mkTask cls { args with timeout := none } cfg ctx nextId = .ok p ∧
        p.1.timeout = none) := by
  refine ⟨?_, ?_, ?_, ?_⟩
  · exact mkTask_timeout_error cls _ cfg ctx nextId hr rfl
  · intro n
    exact ⟨_, mkTask_ok cls _ cfg ctx nextId hr rfl htg hh, rfl⟩
  · intro d hd
    refine ⟨_, mkTask_ok cls _ cfg ctx nextId hr ?_ htg hh, ?_⟩
    · simp [timeoutOk, resolveTimeoutArg, hd]
    · simp [resolvedInt, resolveTimeoutArg, hd]
  · intro hd
    refine ⟨_, mkTask_ok cls _ cfg ctx nextId hr ?_ htg hh, ?_⟩
    · simp [timeoutOk, resolveTimeoutArg, hd]
    · simp [resolvedInt, resolveTimeoutArg, hd]

/-- Witness for C7: `Task(timeout=0.5)` fails with a `TypeError`-class
error; `Task(timeout=1)` reads back `1`; with `tasks.defaults.timeout = 3`
an unset timeout resolves to `3`; with no configured default it is `None`. -/
theorem mkTask_timeout_behaviour_witness :
    (mkTask baseTaskClass { defaultTaskArgs with timeout := some .nonInt }
      defaultConfig emptyContext 0 = .error .typeError) ∧
    (∃ p, mkTask baseTaskClass { defaultTaskArgs with timeout := some (.int 1) }
        defaultConfig emptyContext 0 = .ok p ∧ p.1.timeout = some 1) ∧
    (∃ p, mkTask baseTaskClass defaultTaskArgs (Config.mk (some 3))
        emptyContext 0 = .ok p ∧ p.1.timeout = some 3) ∧
    (∃ p, mkTask baseTaskClass defaultTaskArgs defaultConfig emptyContext 0 =
        .ok p ∧ p.1.timeout = none) := by
  have h := mkTask_timeout_behaviour baseTaskClass defaultTaskArgs
    defaultConfig emptyContext 0 (by decide) (by decide) (by decide)
  have h3 := mkTask_timeout_behaviour baseTaskClass defaultTaskArgs
    (Config.mk (some 3)) emptyContext 0 (by decide) (by decide) (by decide)
  exact ⟨h.1, h.2.1 1, h3.2.2.1 3 rfl, h.2.2.2 rfl⟩

/-- C8: `copy()` yields a new node of the same concrete type that is a
distinct entity — its freshly assigned id differs from the source's id (the
fresh-identifier supply never repeats a live index), so the copy is not
identical to the source — while every other instance attribute, including
the declared work-function signature, is retained, so its work function
behaves as the source's would. -/
theorem copy_distinct_identity (t : Task) (deps : Bool) (j k : Nat)
    (hid : t.id = uuidOfNat j) (hj : j < 2 ^ 128) (hk : k < 2 ^ 128)
    (hjk : j ≠ k) :
    (Task.copy t deps k).1.id ≠ t.id ∧
    (Task.copy t deps k).1 ≠ t ∧
    (Task.copy t deps k).1.typeName = t.typeName ∧
    (Task.copy t deps k).1.shortName = t.shortName ∧
    (Task.copy t deps k).1.ancestors = t.ancestors ∧
    (Task.copy t deps k).1.signature = t.signature ∧
    (Task.copy t deps k).1.name = t.name ∧
    (Task.copy t deps k).1.slug = t.slug ∧
    (Task.copy t deps k).1.max_retries = t.max_retries ∧
    (Task.copy t deps k).1.retry_delay = t.retry_delay ∧
    (Task.copy t deps k).1.timeout = t.timeout ∧
    (Task.copy t deps k).1.trigger = t.trigger ∧
    (Task.copy t deps k).1.state_handlers = t.state_handlers ∧
    (Task.copy t deps k).1.tags = t.tags ∧
    (Task.copy t deps k).1.cache_for = t.cache_for ∧
    (Task.copy t deps k).1.cache_validator = t.cache_validator ∧
    (Task.copy t deps k).1.result_handler = t.result_handler := by
  have hcopy : (Task.copy t deps k).1 = { t with id := uuidOfNat k } := rfl
  have hne : (Task.copy t deps k).1.id ≠ t.id := by
    rw [hcopy, hid]
    intro hcontra
    exact hjk (uuidOfNat_inj hj hk hcontra.symm)
  refine ⟨hne, fun hEq => hne (congrArg Task.id hEq), ?_, ?_, ?_, ?_, ?_, ?_,
    ?_, ?_, ?_, ?_, ?_, ?_, ?_, ?_, ?_⟩ <;> rw [hcopy]

/-- Witness for C8: copying the concrete sample node (id index 0) with the
next fresh index 1 yields a node with a different id, not equal to the
source. -/
theorem copy_distinct_identity_witness :
    (Task.copy sampleTask false 1).1.id ≠ sampleTask.id ∧
    (Task.copy sampleTask false 1).1 ≠ sampleTask ∧
    (Task.copy sampleTask false 1).1.signature = sampleTask.signature := by
  have h := copy_distinct_identity sampleTask false 0 1 rfl
    (by positivity) (by norm_num) (by decide)
  exact ⟨h.1, h.2.1, h.2.2.2.2.2.1⟩

/-- C9: re-assigning a node's id fails with a `ValueError`-class error when
the new value is a plain integer or a malformed string, and succeeds when
it is a well-formed unique-identifier string. -/
theorem set_id_validation (t : Task) :
    (∀ n : Int, t.set_id (.int n) = .error .valueError) ∧
    (∀ s, isUUID s = false → t.set_id (.str s) = .error .valueError) ∧
    (∀ s, isUUID s = true → t.set_id (.str s) = .ok { t with id := s }) := by
  refine ⟨fun n => rfl, ?_, ?_⟩
  · intro s hs
    rw [Task.set_id, if_neg]
    simp [hs]
  · intro s hs
    rw [Task.set_id, if_pos hs]

/-- Witness for C9: on the concrete sample node, assigning `1` (an integer)
fails, assigning `"1"` (malformed) fails, and assigning a canonical
identifier string succeeds. -/
theorem set_id_validation_witness :
    sampleTask.set_id (.int 1) = .error .valueError ∧
    sampleTask.set_id (.str "1") = .error .valueError ∧
    sampleTask.set_id (.str "00000000-0000-4000-8000-000000000000") =
      .ok { sampleTask with id := "00000000-0000-4000-8000-000000000000" } := by
  have h := set_id_validation sampleTask
  exact ⟨h.1 1, h.2.1 "1" (by decide),
    h.2.2 "00000000-0000-4000-8000-000000000000" (by decide)⟩

end Prefect
